import Mathlib

/-!
Shallow embedding of the forecasting logic of `src/app.py`
(ArinKumar2003/SEM8_PROJECT): tab 2 cleans the uploaded rows (date parsing,
dropping NaT rows), tab 3 drops rows with a missing temperature, sorts by
date, fits `sklearn.linear_model.LinearRegression` on the day-of-year
feature and predicts the next 7 days, and `fetch_forecast` wraps an HTTP
call.  Values are embedded as rationals, dates as (year, day-of-year)
pairs with Gregorian calendar arithmetic.
-/

namespace App

/-- Gregorian leap-year rule, as implemented by the pandas timestamp
arithmetic the code relies on. -/
def isLeap (y : ℕ) : Bool := y % 4 == 0 && (y % 100 != 0 || y % 400 == 0)

/-- Number of days in year `y`. -/
def daysInYear (y : ℕ) : ℕ := if isLeap y then 366 else 365

/-- A calendar date, as the pair (year, 1-based day of year).  This models a
pandas `Timestamp` at day resolution: `.dayofyear` is the `doy` field. -/
structure Date where
  year : ℕ
  doy : ℕ
deriving DecidableEq, Repr

/-- The calendar day after `d`, wrapping into the next year at year end. -/
def Date.nextDay (d : Date) : Date :=
  if d.doy + 1 ≤ daysInYear d.year then ⟨d.year, d.doy + 1⟩ else ⟨d.year + 1, 1⟩

/-- Adding `k` days to a date, one day at a time, exactly as
`Timestamp + timedelta(days=k)` advances through the calendar. -/
def Date.addDays (d : Date) : ℕ → Date
  | 0 => d
  | k + 1 => d.nextDay.addDays k

/-- Lexicographic order on dates (chronological order). -/
def Date.le (a b : Date) : Prop :=
  a.year < b.year ∨ (a.year = b.year ∧ a.doy ≤ b.doy)

instance : DecidableRel Date.le := by
  intro a b; unfold Date.le; infer_instance

/-- A raw uploaded CSV row, after the library call `pd.to_datetime` on its
`Date.Full` cell: `dateParse` is `some d` when the cell parses and `none`
when the row got `NaT` (tab 2, lines 71-78), and `temp` is the
`Data.Temperature.Avg Temp` cell, `none` for a missing value. -/
structure RawRow where
  dateParse : Option Date
  temp : Option ℚ
deriving DecidableEq

/-- A row of the dataframe after tab 2's cleaning: the `Date` column is a
valid date, the temperature may still be missing. -/
structure CleanRow where
  date : Date
  temp : Option ℚ
deriving DecidableEq

/-- Tab 2 (lines 71-86): parse `Date.Full` into the `Date` column, setting
failures to `NaT`, then `df.dropna(subset=["Date"])`. -/
def tab2Clean (rows : List RawRow) : List CleanRow :=
  rows.filterMap (fun r => r.dateParse.map (fun d => ⟨d, r.temp⟩))

/-- An observation entering the fit: a valid date and a present temperature. -/
structure Obs where
  date : Date
  temp : ℚ
deriving DecidableEq

/-- Chronological order on observations, the key of `df.sort_values("Date")`. -/
def obsLe (a b : Obs) : Prop := Date.le a.date b.date

instance : DecidableRel obsLe := by
  intro a b; unfold obsLe; infer_instance

instance : IsTotal Obs obsLe := by
  constructor; intro a b; unfold obsLe Date.le; omega

instance : IsTrans Obs obsLe := by
  constructor; intro a b c; unfold obsLe Date.le; omega

/-- Tab 3 line 104: `df.dropna(subset=['Date', 'Data.Temperature.Avg Temp'])`
(the `Date` column holds no nulls any more after tab 2). -/
def dropnaTemp (rows : List CleanRow) : List Obs :=
  rows.filterMap (fun r => r.temp.map (fun v => ⟨r.date, v⟩))

/-- Tab 3 line 105: `df.sort_values("Date")`, modelled by a comparison sort
on the date key. -/
def sortByDate (l : List Obs) : List Obs := List.insertionSort obsLe l

/-- The observations the model is fitted on: temperature nulls dropped,
sorted ascending by date (tab 3, lines 104-105). -/
def cleanObs (rows : List CleanRow) : List Obs := sortByDate (dropnaTemp rows)

/-- Arithmetic mean of a list of rationals (`0` on the empty list, since
`x / 0 = 0` on `ℚ`). -/
def mean (l : List ℚ) : ℚ := l.sum / l.length

/-- Slope fitted by `LinearRegression().fit(X, y)` on a single feature
(lines 113-114): ordinary least squares with intercept, which centres the
data and solves by least squares, giving slope `Sxy / Sxx`; on a constant
feature the centred problem is singular and the minimum-norm solution is
slope `0`. -/
def fitSlope (pts : List (ℚ × ℚ)) : ℚ :=
  let xbar := mean (pts.map Prod.fst)
  let ybar := mean (pts.map Prod.snd)
  let sxx := (pts.map (fun p => (p.1 - xbar) * (p.1 - xbar))).sum
  let sxy := (pts.map (fun p => (p.1 - xbar) * (p.2 - ybar))).sum
  if sxx = 0 then 0 else sxy / sxx

/-- Intercept fitted by `LinearRegression().fit(X, y)`. -/
def fitIntercept (pts : List (ℚ × ℚ)) : ℚ :=
  mean (pts.map Prod.snd) - fitSlope pts * mean (pts.map Prod.fst)

/-- `model.predict` at feature value `x` for the fitted model. -/
def predict (pts : List (ℚ × ℚ)) (x : ℚ) : ℚ :=
  fitIntercept pts + fitSlope pts * x

/-- Line 108-110: the feature matrix pairs `(DayOfYear, temperature)`. -/
def toPts (l : List Obs) : List (ℚ × ℚ) :=
  l.map (fun o => ((o.date.doy : ℚ), o.temp))

/-- The failure modes of the tab 3 prediction block: the explicit
empty-dataframe guard at line 99, and the `ValueError` that
`model.fit` raises when every row lost its temperature to `dropna`. -/
inductive Err where
  | emptyData
  | noSamples
deriving DecidableEq

/-- Tab 3 prediction block (lines 98-125): guard on the dataframe produced
by tab 2 being empty, drop missing temperatures, sort by date, fit the
regression on the day-of-year feature, then for `i in range(1, 8)` predict
at feature `last_date.dayofyear + i` and pair the predictions with the
calendar dates `last_date + timedelta(days=i)`. -/
def forecastPipeline (rows : List CleanRow) : Except Err (List (Date × ℚ)) :=
  if rows.isEmpty then Except.error Err.emptyData
  else
    match (cleanObs rows).getLast? with
    | none => Except.error Err.noSamples
    | some lastObs =>
      let pts := toPts (cleanObs rows)
      let preds := (List.range 7).map
        (fun i => predict pts ((lastObs.date.doy : ℚ) + ((i : ℚ) + 1)))
      let dates := (List.range 7).map (fun i => lastObs.date.addDays (i + 1))
      Except.ok (dates.zip preds)

/-- An HTTP response as seen by `fetch_forecast`: a status code and the
value that `response.json()` would parse the body to. -/
structure HttpResponse (α : Type) where
  statusCode : ℕ
  body : α
deriving DecidableEq

/-- Lines 10-24: `fetch_forecast` returns `response.json()` when
`response.status_code == 200` and `None` otherwise. -/
def fetch_forecast {α : Type} (resp : HttpResponse α) : Option α :=
  if resp.statusCode = 200 then some resp.body else none

/-- What tab 3 renders (lines 116-158): the 7-day projection, together with
the live forecast rows when the `fetch_forecast` call succeeded (the page
then shows the merged table) and nothing from the network otherwise. -/
def tab3Display (rows : List CleanRow) (resp : HttpResponse (List (Date × ℚ))) :
    Except Err (List (Date × ℚ) × Option (List (Date × ℚ))) :=
  match forecastPipeline rows with
  | Except.error e => Except.error e
  | Except.ok proj => Except.ok (proj, fetch_forecast resp)

/-- Mean of first differences of a value sequence, as §4.1 of the spec
describes it: `mean_delta = average(d)` with `d[i] = value[i] - value[i-1]`.
Written from the spec only, to compare the code against. -/
def specMeanDelta (vals : List ℚ) : ℚ :=
  mean ((vals.zip vals.tail).map (fun p => p.2 - p.1))

/-- The projection §4.1 of the spec describes: step `k` carries
`last_value + mean_delta * k` for `k = 1 .. horizon`.  Written from the
spec only, to compare the code against. -/
def specProject (vals : List ℚ) (horizon : ℕ) : List (ℕ × ℚ) :=
  (List.range horizon).map
    (fun k => (k + 1, vals.getLast?.getD 0 + specMeanDelta vals * ((k : ℚ) + 1)))

/-- Three cleaned rows on days 1, 2, 3 with temperatures 0, 0, 3. -/
def rowsA : List CleanRow :=
  [⟨⟨2023, 1⟩, some 0⟩, ⟨⟨2023, 2⟩, some 0⟩, ⟨⟨2023, 3⟩, some 3⟩]

/-- The spec's concrete scenario 5: values 3, 1, 7 on three consecutive days. -/
def rowsB : List CleanRow :=
  [⟨⟨2023, 1⟩, some 3⟩, ⟨⟨2023, 2⟩, some 1⟩, ⟨⟨2023, 3⟩, some 7⟩]

/-- Values 0, 1, 2 (constant consecutive difference 1) on days 1, 2, 4. -/
def rowsC : List CleanRow :=
  [⟨⟨2023, 1⟩, some 0⟩, ⟨⟨2023, 2⟩, some 1⟩, ⟨⟨2023, 4⟩, some 2⟩]

/-- Values 1, 2 on days 10, 11. -/
def rowsD : List CleanRow :=
  [⟨⟨2023, 10⟩, some 1⟩, ⟨⟨2023, 11⟩, some 2⟩]

/-- A single observation: value 5 on day 5. -/
def rowsE : List CleanRow := [⟨⟨2023, 5⟩, some 5⟩]

/-- The spec's concrete scenario 4 series: values 1, 2 on days 1, 2. -/
def rowsF : List CleanRow :=
  [⟨⟨2023, 1⟩, some 1⟩, ⟨⟨2023, 2⟩, some 2⟩]

/-- Values 1, 3 on days 20, 21. -/
def rowsG : List CleanRow :=
  [⟨⟨2023, 20⟩, some 1⟩, ⟨⟨2023, 21⟩, some 3⟩]

/-- A perfectly linear series on consecutive days: 10, 12, 14 on days 1, 2, 3. -/
def rowsH : List CleanRow :=
  [⟨⟨2023, 1⟩, some 10⟩, ⟨⟨2023, 2⟩, some 12⟩, ⟨⟨2023, 3⟩, some 14⟩]

/-- Two observations at the end of leap year 2020: values 1, 2 on days 364, 365. -/
def rowsI : List CleanRow :=
  [⟨⟨2020, 364⟩, some 1⟩, ⟨⟨2020, 365⟩, some 2⟩]

/-- The code's output on `rowsA`. -/
def outA : List (Date × ℚ) :=
  [(⟨2023, 4⟩, 4), (⟨2023, 5⟩, 11/2), (⟨2023, 6⟩, 7), (⟨2023, 7⟩, 17/2),
   (⟨2023, 8⟩, 10), (⟨2023, 9⟩, 23/2), (⟨2023, 10⟩, 13)]

/-- The code's output on `rowsB`. -/
def outB : List (Date × ℚ) :=
  [(⟨2023, 4⟩, 23/3), (⟨2023, 5⟩, 29/3), (⟨2023, 6⟩, 35/3), (⟨2023, 7⟩, 41/3),
   (⟨2023, 8⟩, 47/3), (⟨2023, 9⟩, 53/3), (⟨2023, 10⟩, 59/3)]

/-- The code's output on `rowsC`. -/
def outC : List (Date × ℚ) :=
  [(⟨2023, 5⟩, 19/7), (⟨2023, 6⟩, 47/14), (⟨2023, 7⟩, 4), (⟨2023, 8⟩, 65/14),
   (⟨2023, 9⟩, 37/7), (⟨2023, 10⟩, 83/14), (⟨2023, 11⟩, 46/7)]

/-- The code's output on `rowsD`. -/
def outD : List (Date × ℚ) :=
  [(⟨2023, 12⟩, 3), (⟨2023, 13⟩, 4), (⟨2023, 14⟩, 5), (⟨2023, 15⟩, 6),
   (⟨2023, 16⟩, 7), (⟨2023, 17⟩, 8), (⟨2023, 18⟩, 9)]

/-- The code's output on `rowsE`. -/
def outE : List (Date × ℚ) :=
  [(⟨2023, 6⟩, 5), (⟨2023, 7⟩, 5), (⟨2023, 8⟩, 5), (⟨2023, 9⟩, 5),
   (⟨2023, 10⟩, 5), (⟨2023, 11⟩, 5), (⟨2023, 12⟩, 5)]

/-- The code's output on `rowsF`. -/
def outF : List (Date × ℚ) :=
  [(⟨2023, 3⟩, 3), (⟨2023, 4⟩, 4), (⟨2023, 5⟩, 5), (⟨2023, 6⟩, 6),
   (⟨2023, 7⟩, 7), (⟨2023, 8⟩, 8), (⟨2023, 9⟩, 9)]

/-- The code's output on `rowsH`. -/
def outH : List (Date × ℚ) :=
  [(⟨2023, 4⟩, 16), (⟨2023, 5⟩, 18), (⟨2023, 6⟩, 20), (⟨2023, 7⟩, 22),
   (⟨2023, 8⟩, 24), (⟨2023, 9⟩, 26), (⟨2023, 10⟩, 28)]

/-- The code's output on `rowsI`: the dates wrap into 2021 but the features
keep counting 366, 367, ... past the end of 2020. -/
def outI : List (Date × ℚ) :=
  [(⟨2020, 366⟩, 3), (⟨2021, 1⟩, 4), (⟨2021, 2⟩, 5), (⟨2021, 3⟩, 6),
   (⟨2021, 4⟩, 7), (⟨2021, 5⟩, 8), (⟨2021, 6⟩, 9)]

/-- Rows exercising every cleaning path: an unparseable date, a missing
temperature, and two valid observations arriving out of order. -/
def rawsJ : List RawRow :=
  [⟨some ⟨2023, 2⟩, some 5⟩, ⟨none, some 9⟩, ⟨some ⟨2023, 3⟩, none⟩,
   ⟨some ⟨2023, 1⟩, some 4⟩]

/-- A cleaned row whose temperature cell is missing. -/
def rowsK : List CleanRow := [⟨⟨2023, 1⟩, none⟩]

theorem daysInYear_pos (y : ℕ) : 365 ≤ daysInYear y := by
  unfold daysInYear; split <;> omega

theorem addDays_no_wrap :
    ∀ (k : ℕ) (d : Date), d.doy + k ≤ daysInYear d.year →
      d.addDays k = ⟨d.year, d.doy + k⟩
  | 0, d, _ => by cases d; simp [Date.addDays]
  | k + 1, d, h => by
    have hstep : d.doy + 1 ≤ daysInYear d.year := by omega
    show (d.nextDay).addDays k = _
    unfold Date.nextDay
    rw [if_pos hstep, addDays_no_wrap k ⟨d.year, d.doy + 1⟩ (by simp; omega)]
    simp
    omega

theorem addDays_wrap :
    ∀ (k : ℕ) (d : Date), d.doy ≤ daysInYear d.year →
      daysInYear d.year < d.doy + k →
      d.doy + k - daysInYear d.year ≤ daysInYear (d.year + 1) →
      d.addDays k = ⟨d.year + 1, d.doy + k - daysInYear d.year⟩
  | 0, d, h1, h2, _ => by omega
  | k + 1, d, h1, h2, h3 => by
    show (d.nextDay).addDays k = _
    unfold Date.nextDay
    by_cases hstep : d.doy + 1 ≤ daysInYear d.year
    · rw [if_pos hstep,
        addDays_wrap k ⟨d.year, d.doy + 1⟩ (by simp; omega) (by simp; omega)
          (by simp; omega)]
      simp
      omega
    · rw [if_neg hstep,
        addDays_no_wrap k ⟨d.year + 1, 1⟩ (by simp; omega)]
      simp
      omega

theorem mem_of_getLast?_eq {α : Type} {l : List α} {a : α}
    (h : l.getLast? = some a) : a ∈ l := by
  rcases List.mem_getLast?_eq_getLast (by rw [h]; rfl) with ⟨hne, rfl⟩
  exact List.getLast_mem hne

theorem sum_map_affine {α : Type} (a b : ℚ) (f : α → ℚ) (l : List α) :
    (l.map (fun p => a + b * f p)).sum = l.length * a + b * (l.map f).sum := by
  induction l with
  | nil => simp
  | cons x xs ih => simp [ih]; ring

theorem sum_nonneg_eq_zero :
    ∀ (l : List ℚ), (∀ x ∈ l, 0 ≤ x) → l.sum = 0 → ∀ x ∈ l, x = 0
  | [], _, _ => by simp
  | y :: ys, h0, hs => by
    have hy : 0 ≤ y := h0 y (List.mem_cons_self y ys)
    have hys : 0 ≤ ys.sum :=
      List.sum_nonneg (fun x hx => h0 x (List.mem_cons_of_mem y hx))
    rw [List.sum_cons] at hs
    intro x hx
    rcases List.mem_cons.mp hx with h1 | h2
    · rw [h1]; linarith
    · exact sum_nonneg_eq_zero ys
        (fun z hz => h0 z (List.mem_cons_of_mem y hz)) (by linarith) x h2

theorem mean_affine {pts : List (ℚ × ℚ)} (a b : ℚ) (hne : pts ≠ [])
    (hlin : ∀ p ∈ pts, p.2 = a + b * p.1) :
    mean (pts.map Prod.snd) = a + b * mean (pts.map Prod.fst) := by
  have h1 : pts.map Prod.snd = pts.map (fun p => a + b * p.1) :=
    List.map_congr_left hlin
  have hn : ((pts.length : ℚ)) ≠ 0 := by
    have := List.length_pos.mpr hne
    positivity
  unfold mean
  rw [h1, sum_map_affine a b Prod.fst pts, List.length_map, List.length_map]
  field_simp
  ring

theorem sxx_ne_zero {pts : List (ℚ × ℚ)} {p q : ℚ × ℚ}
    (hp : p ∈ pts) (hq : q ∈ pts) (hpq : p.1 ≠ q.1) :
    (pts.map (fun r =>
      (r.1 - mean (pts.map Prod.fst)) * (r.1 - mean (pts.map Prod.fst)))).sum ≠ 0 := by
  intro h0
  have hz := sum_nonneg_eq_zero _
    (by
      intro x hx
      rcases List.mem_map.mp hx with ⟨r, _, rfl⟩
      exact mul_self_nonneg _) h0
  have hp0 := hz _ (List.mem_map_of_mem _ hp)
  have hq0 := hz _ (List.mem_map_of_mem _ hq)
  have hp1 := sub_eq_zero.mp (mul_self_eq_zero.mp hp0)
  have hq1 := sub_eq_zero.mp (mul_self_eq_zero.mp hq0)
  exact hpq (hp1.trans hq1.symm)

theorem fitSlope_affine {pts : List (ℚ × ℚ)} {a b : ℚ} {p q : ℚ × ℚ}
    (hp : p ∈ pts) (hq : q ∈ pts) (hpq : p.1 ≠ q.1)
    (hlin : ∀ r ∈ pts, r.2 = a + b * r.1) :
    fitSlope pts = b := by
  have hne : pts ≠ [] := List.ne_nil_of_mem hp
  have hmean := mean_affine a b hne hlin
  have hsxx := sxx_ne_zero hp hq hpq
  unfold fitSlope
  rw [if_neg hsxx]
  have hsxy : (pts.map (fun r =>
        (r.1 - mean (pts.map Prod.fst)) * (r.2 - mean (pts.map Prod.snd)))).sum
      = b * (pts.map (fun r =>
        (r.1 - mean (pts.map Prod.fst)) * (r.1 - mean (pts.map Prod.fst)))).sum := by
    rw [← List.sum_map_mul_left]
    apply congrArg List.sum
    apply List.map_congr_left
    intro r hr
    rw [hlin r hr, hmean]
    ring
  rw [hsxy, mul_div_assoc, div_self hsxx, mul_one]

theorem fitIntercept_affine {pts : List (ℚ × ℚ)} {a b : ℚ} {p q : ℚ × ℚ}
    (hp : p ∈ pts) (hq : q ∈ pts) (hpq : p.1 ≠ q.1)
    (hlin : ∀ r ∈ pts, r.2 = a + b * r.1) :
    fitIntercept pts = a := by
  have hne : pts ≠ [] := List.ne_nil_of_mem hp
  unfold fitIntercept
  rw [fitSlope_affine hp hq hpq hlin, mean_affine a b hne hlin]
  ring

theorem predict_affine {pts : List (ℚ × ℚ)} {a b : ℚ} {p q : ℚ × ℚ}
    (hp : p ∈ pts) (hq : q ∈ pts) (hpq : p.1 ≠ q.1)
    (hlin : ∀ r ∈ pts, r.2 = a + b * r.1) (x : ℚ) :
    predict pts x = a + b * x := by
  unfold predict
  rw [fitSlope_affine hp hq hpq hlin, fitIntercept_affine hp hq hpq hlin]

theorem mem_cleanObs {rows : List CleanRow} {o : Obs} :
    o ∈ cleanObs rows ↔ ∃ r ∈ rows, r.date = o.date ∧ r.temp = some o.temp := by
  unfold cleanObs sortByDate dropnaTemp
  rw [List.mem_insertionSort, List.mem_filterMap]
  constructor
  · rintro ⟨r, hr, hmap⟩
    rcases Option.map_eq_some'.mp hmap with ⟨v, hv, hvo⟩
    exact ⟨r, hr, by rw [← hvo], by rw [hv, ← hvo]⟩
  · rintro ⟨r, hr, hdate, htemp⟩
    exact ⟨r, hr, by rw [htemp, Option.map_some', hdate]⟩

theorem cleanObs_nil_iff {rows : List CleanRow} :
    cleanObs rows = [] ↔ dropnaTemp rows = [] := by
  constructor
  · intro h
    have hperm := List.perm_insertionSort obsLe (dropnaTemp rows)
    unfold cleanObs sortByDate at h
    rw [h] at hperm
    exact (List.Perm.nil_eq hperm).symm
  · intro h
    unfold cleanObs sortByDate
    rw [h]
    rfl

theorem forecastPipeline_eq {rows : List CleanRow} {o : Obs}
    (h1 : rows ≠ []) (h2 : (cleanObs rows).getLast? = some o) :
    forecastPipeline rows = Except.ok
      [(o.date.addDays 1, predict (toPts (cleanObs rows)) ((o.date.doy : ℚ) + 1)),
       (o.date.addDays 2, predict (toPts (cleanObs rows)) ((o.date.doy : ℚ) + 2)),
       (o.date.addDays 3, predict (toPts (cleanObs rows)) ((o.date.doy : ℚ) + 3)),
       (o.date.addDays 4, predict (toPts (cleanObs rows)) ((o.date.doy : ℚ) + 4)),
       (o.date.addDays 5, predict (toPts (cleanObs rows)) ((o.date.doy : ℚ) + 5)),
       (o.date.addDays 6, predict (toPts (cleanObs rows)) ((o.date.doy : ℚ) + 6)),
       (o.date.addDays 7, predict (toPts (cleanObs rows)) ((o.date.doy : ℚ) + 7))] := by
  unfold forecastPipeline
  rw [if_neg (by simpa using h1), h2]
  have hr : List.range 7 = [0, 1, 2, 3, 4, 5, 6] := rfl
  simp only [hr, List.map_cons, List.map_nil, List.zip_cons_cons, List.zip_nil_right]
  norm_num

theorem pipeA : forecastPipeline rowsA = Except.ok outA := by
  rw [forecastPipeline_eq (by decide)
      (show (cleanObs rowsA).getLast? = some ⟨⟨2023, 3⟩, 3⟩ by decide),
    show toPts (cleanObs rowsA) = [(1, 0), (2, 0), (3, 3)] by decide]
  norm_num [outA, Date.addDays, Date.nextDay, daysInYear, isLeap, predict,
    fitSlope, fitIntercept, mean]

theorem pipeB : forecastPipeline rowsB = Except.ok outB := by
  rw [forecastPipeline_eq (by decide)
      (show (cleanObs rowsB).getLast? = some ⟨⟨2023, 3⟩, 7⟩ by decide),
    show toPts (cleanObs rowsB) = [(1, 3), (2, 1), (3, 7)] by decide]
  norm_num [outB, Date.addDays, Date.nextDay, daysInYear, isLeap, predict,
    fitSlope, fitIntercept, mean]

theorem pipeC : forecastPipeline rowsC = Except.ok outC := by
  rw [forecastPipeline_eq (by decide)
      (show (cleanObs rowsC).getLast? = some ⟨⟨2023, 4⟩, 2⟩ by decide),
    show toPts (cleanObs rowsC) = [(1, 0), (2, 1), (4, 2)] by decide]
  norm_num [outC, Date.addDays, Date.nextDay, daysInYear, isLeap, predict,
    fitSlope, fitIntercept, mean]

theorem pipeD : forecastPipeline rowsD = Except.ok outD := by
  rw [forecastPipeline_eq (by decide)
      (show (cleanObs rowsD).getLast? = some ⟨⟨2023, 11⟩, 2⟩ by decide),
    show toPts (cleanObs rowsD) = [(10, 1), (11, 2)] by decide]
  norm_num [outD, Date.addDays, Date.nextDay, daysInYear, isLeap, predict,
    fitSlope, fitIntercept, mean]

theorem pipeE : forecastPipeline rowsE = Except.ok outE := by
  rw [forecastPipeline_eq (by decide)
      (show (cleanObs rowsE).getLast? = some ⟨⟨2023, 5⟩, 5⟩ by decide),
    show toPts (cleanObs rowsE) = [(5, 5)] by decide]
  norm_num [outE, Date.addDays, Date.nextDay, daysInYear, isLeap, predict,
    fitSlope, fitIntercept, mean]

theorem pipeF : forecastPipeline rowsF = Except.ok outF := by
  rw [forecastPipeline_eq (by decide)
      (show (cleanObs rowsF).getLast? = some ⟨⟨2023, 2⟩, 2⟩ by decide),
    show toPts (cleanObs rowsF) = [(1, 1), (2, 2)] by decide]
  norm_num [outF, Date.addDays, Date.nextDay, daysInYear, isLeap, predict,
    fitSlope, fitIntercept, mean]

theorem pipeH : forecastPipeline rowsH = Except.ok outH := by
  rw [forecastPipeline_eq (by decide)
      (show (cleanObs rowsH).getLast? = some ⟨⟨2023, 3⟩, 14⟩ by decide),
    show toPts (cleanObs rowsH) = [(1, 10), (2, 12), (3, 14)] by decide]
  norm_num [outH, Date.addDays, Date.nextDay, daysInYear, isLeap, predict,
    fitSlope, fitIntercept, mean]

theorem pipeI : forecastPipeline rowsI = Except.ok outI := by
  rw [forecastPipeline_eq (by decide)
      (show (cleanObs rowsI).getLast? = some ⟨⟨2020, 365⟩, 2⟩ by decide),
    show toPts (cleanObs rowsI) = [(364, 1), (365, 2)] by decide]
  norm_num [outI, Date.addDays, Date.nextDay, daysInYear, isLeap, predict,
    fitSlope, fitIntercept, mean]

/-- C8: before the model is fitted, every row whose date failed to parse and
every row with a missing temperature has been removed: the fitted series is
sorted ascending by date and its observations are exactly those rows of the
upload that carry a parsed date and a present temperature, so no missing
value enters the fit. -/
theorem c8_fitted_series_clean_sorted (raws : List RawRow) :
    List.Sorted obsLe (cleanObs (tab2Clean raws)) ∧
    (∀ o : Obs, o ∈ cleanObs (tab2Clean raws) ↔
      ∃ r ∈ raws, r.dateParse = some o.date ∧ r.temp = some o.temp) := by
  constructor
  · exact List.sorted_insertionSort obsLe (dropnaTemp (tab2Clean raws))
  · intro o
    rw [mem_cleanObs]
    constructor
    · rintro ⟨r, hr, hdate, htemp⟩
      rcases List.mem_filterMap.mp hr with ⟨raw, hraw, hmap⟩
      rcases Option.map_eq_some'.mp hmap with ⟨d, hd, hdr⟩
      cases hdr
      refine ⟨raw, hraw, ?_, by simpa using htemp⟩
      rw [hd]
      exact congrArg some (by simpa using hdate)
    · rintro ⟨raw, hraw, hdp, htemp⟩
      refine ⟨⟨o.date, raw.temp⟩, ?_, rfl, htemp⟩
      exact List.mem_filterMap.mpr ⟨raw, hraw, by rw [hdp, Option.map_some']⟩

theorem c8_witness :
    List.Sorted obsLe (cleanObs (tab2Clean rawsJ)) ∧
    (∀ o : Obs, o ∈ cleanObs (tab2Clean rawsJ) ↔
      ∃ r ∈ rawsJ, r.dateParse = some o.date ∧ r.temp = some o.temp) :=
  c8_fitted_series_clean_sorted rawsJ

/-- C9: the k-th predicted value is the fitted model evaluated at the
feature `last_date.dayofyear + k`, which does not wrap at the year
boundary, while the k-th displayed date is the calendar date
`last_date + k` days; hence whenever `last_date.dayofyear + k` runs past
the end of the year, the displayed date's day-of-year differs from the
feature it is paired with. -/
theorem c9_feature_ignores_year_wrap {rows : List CleanRow}
    {l : List (Date × ℚ)} {o : Obs} {k : ℕ}
    (hrows : rows ≠ []) (hlast : (cleanObs rows).getLast? = some o)
    (hok : forecastPipeline rows = Except.ok l)
    (hk1 : 1 ≤ k) (hk7 : k ≤ 7)
    (hdoy : o.date.doy ≤ daysInYear o.date.year) :
    l.get? (k - 1) = some (o.date.addDays k,
      predict (toPts (cleanObs rows)) ((o.date.doy : ℚ) + (k : ℚ))) ∧
    (daysInYear o.date.year < o.date.doy + k →
      (o.date.addDays k).doy ≠ o.date.doy + k) := by
  have hl := Except.ok.inj ((forecastPipeline_eq hrows hlast).symm.trans hok)
  constructor
  · rw [← hl]
    interval_cases k <;> norm_num
  · intro hover
    have h365 := daysInYear_pos o.date.year
    have h365' := daysInYear_pos (o.date.year + 1)
    rw [addDays_wrap k o.date hdoy hover (by omega)]
    simp
    omega

theorem c9_witness :
    outI.get? 2 = some (Date.addDays ⟨2020, 365⟩ 3,
      predict (toPts (cleanObs rowsI)) (((365 : ℕ) : ℚ) + ((3 : ℕ) : ℚ))) ∧
    (Date.addDays ⟨2020, 365⟩ 3).doy ≠ 365 + 3 := by
  have h := @c9_feature_ignores_year_wrap rowsI outI ⟨⟨2020, 365⟩, 2⟩ 3
    (by decide) (by decide) pipeI (by decide) (by decide) (by decide)
  exact ⟨h.1, h.2 (by decide)⟩

/-- C10: `fetch_forecast` returns the parsed JSON body of the response when
the status code is 200 and `None` for every other status code. -/
theorem c10_fetch_forecast_status {α : Type} (resp : HttpResponse α) :
    (resp.statusCode = 200 → fetch_forecast resp = some resp.body) ∧
    (resp.statusCode ≠ 200 → fetch_forecast resp = none) := by
  unfold fetch_forecast
  constructor <;> intro h <;> simp [h]

theorem c10_witness :
    fetch_forecast (HttpResponse.mk 200 (0 : ℚ)) = some 0 ∧
    fetch_forecast (HttpResponse.mk 404 (0 : ℚ)) = none :=
  ⟨(c10_fetch_forecast_status ⟨200, 0⟩).1 rfl,
   (c10_fetch_forecast_status ⟨404, 0⟩).2 (by decide)⟩

/-- C1 counterexample: on the series with values 0, 0, 3 on days 1, 2, 3 the
mean of first differences is 3/2, so the claimed step-1 prediction is
3 + 3/2 = 9/2, but the code's first prediction is 4 (its regression line
does not pass through the last observation), and the code ignores the
requested horizon. -/
theorem c1_counterexample :
    (forecastPipeline rowsA).toOption.map (fun l => l.map Prod.snd)
      = some [4, 11/2, 7, 17/2, 10, 23/2, 13] ∧
    specProject [0, 0, 3] 7
      = [(1, 9/2), (2, 6), (3, 15/2), (4, 9), (5, 21/2), (6, 12), (7, 27/2)] ∧
    ((4 : ℚ) ≠ 9/2) := by
  refine ⟨by rw [pipeA]; rfl, ?_, by norm_num⟩
  norm_num [specProject, specMeanDelta, mean, List.range_succ]

/-- C1 amended: the forecasting operation fits an ordinary least-squares
regression of temperature on day-of-year over the cleaned sorted series and
returns, for each future step k from 1 to 7 (the horizon is fixed at 7),
the fitted value at the last observed day-of-year plus the fitted slope
times k. -/
theorem c1_least_squares_projection {rows : List CleanRow}
    {l : List (Date × ℚ)} {o : Obs} {k : ℕ}
    (hrows : rows ≠ []) (hlast : (cleanObs rows).getLast? = some o)
    (hok : forecastPipeline rows = Except.ok l)
    (hk1 : 1 ≤ k) (hk7 : k ≤ 7) :
    (l.map Prod.snd).get? (k - 1) =
      some (predict (toPts (cleanObs rows)) ((o.date.doy : ℚ))
        + fitSlope (toPts (cleanObs rows)) * (k : ℚ)) := by
  have hl := Except.ok.inj ((forecastPipeline_eq hrows hlast).symm.trans hok)
  rw [← hl]
  unfold predict
  interval_cases k <;> norm_num <;> ring

theorem c1_witness :
    (outA.map Prod.snd).get? 0 =
      some (predict (toPts (cleanObs rowsA)) (((3 : ℕ) : ℚ))
        + fitSlope (toPts (cleanObs rowsA)) * ((1 : ℕ) : ℚ)) :=
  @c1_least_squares_projection rowsA outA ⟨⟨2023, 3⟩, 3⟩ 1
    (by decide) (by decide) pipeA (by decide) (by decide)

/-- C2 counterexample: on the spec's series [(1, 3.0), (2, 1.0), (3, 7.0)]
the code returns seven predictions, not one, and its first prediction is
23/3, not 9. -/
theorem c2_counterexample :
    (forecastPipeline rowsB).toOption.map (fun l => l.map Prod.snd)
      = some [23/3, 29/3, 35/3, 41/3, 47/3, 53/3, 59/3] ∧
    specProject [3, 1, 7] 1 = [(1, 9)] ∧
    ((23 : ℚ)/3 ≠ 9) ∧
    (forecastPipeline rowsB).toOption.map List.length ≠ some 1 := by
  refine ⟨by rw [pipeB]; rfl, ?_, by norm_num, by rw [pipeB]; decide⟩
  norm_num [specProject, specMeanDelta, mean, List.range_succ]

/-- C2 amended: on the series with values 3, 1, 7 on days 1, 2, 3 the code
fits slope 2 and intercept -1/3 and returns the seven predictions
23/3, 29/3, ..., 59/3 for days 4 through 10; in particular the first
prediction is 23/3, not 9. -/
theorem c2_concrete_output :
    forecastPipeline rowsB = Except.ok outB ∧
    fitSlope (toPts (cleanObs rowsB)) = 2 ∧
    fitIntercept (toPts (cleanObs rowsB)) = -1/3 ∧
    outB.map Prod.snd = [23/3, 29/3, 35/3, 41/3, 47/3, 53/3, 59/3] := by
  refine ⟨pipeB, ?_, ?_, by simp [outB]⟩ <;>
    rw [show toPts (cleanObs rowsB) = [(1, 3), (2, 1), (3, 7)] by decide] <;>
    norm_num [fitSlope, fitIntercept, mean]

/-- C3 counterexample: the series with values 0, 1, 2 on days 1, 2, 4 has
constant consecutive difference 1, so the claim demands the step-1
prediction 2 + 1 = 3, but the code regresses on the day-of-year feature
(with a gap between days 2 and 4) and predicts 19/7. -/
theorem c3_counterexample :
    (([0, 1, 2] : List ℚ).zip ([0, 1, 2] : List ℚ).tail).map
      (fun p => p.2 - p.1) = [1, 1] ∧
    (forecastPipeline rowsC).toOption.map (fun l => l.map Prod.snd)
      = some [19/7, 47/14, 4, 65/14, 37/7, 83/14, 46/7] ∧
    ((19 : ℚ)/7 ≠ 2 + 1 * 1) := by
  refine ⟨by norm_num, by rw [pipeC]; rfl, by norm_num⟩

/-- C3 amended: when the present temperatures are an exact affine function
of the day-of-year feature (slope b) and at least two observations have
distinct days, the least-squares fit is exact, so for every step k from 1
to 7 (the horizon is fixed at 7) the code predicts exactly the last
observed value plus b * k.  A series with constant positional differences
but gaps in its days does not satisfy this hypothesis and is not predicted
exactly. -/
theorem c3_affine_in_day_exact {rows : List CleanRow}
    {l : List (Date × ℚ)} {o : Obs} {k : ℕ} {a b : ℚ}
    (hrows : rows ≠ []) (hlast : (cleanObs rows).getLast? = some o)
    (hok : forecastPipeline rows = Except.ok l)
    (hlin : ∀ r ∈ rows, r.temp = none ∨ r.temp = some (a + b * (r.date.doy : ℚ)))
    (hdist : ∃ r1 ∈ rows, ∃ r2 ∈ rows, r1.temp.isSome ∧ r2.temp.isSome ∧
      ((r1.date.doy : ℚ) ≠ (r2.date.doy : ℚ)))
    (hk1 : 1 ≤ k) (hk7 : k ≤ 7) :
    (l.map Prod.snd).get? (k - 1) = some (o.temp + b * (k : ℚ)) := by
  have hptsLin : ∀ p ∈ toPts (cleanObs rows), p.2 = a + b * p.1 := by
    intro p hp
    rcases List.mem_map.mp hp with ⟨obs, hobs, rfl⟩
    rcases mem_cleanObs.mp hobs with ⟨r, hr, hdate, htemp⟩
    rcases hlin r hr with h | h
    · rw [h] at htemp; cases htemp
    · rw [h] at htemp
      have hv := Option.some.inj htemp
      simp only [← hv, ← hdate]
  rcases hdist with ⟨r1, hr1, r2, hr2, hs1, hs2, hxy⟩
  rcases Option.isSome_iff_exists.mp hs1 with ⟨v1, hv1⟩
  rcases Option.isSome_iff_exists.mp hs2 with ⟨v2, hv2⟩
  have hm1 : (((r1.date.doy : ℚ)), v1) ∈ toPts (cleanObs rows) := by
    have : (⟨r1.date, v1⟩ : Obs) ∈ cleanObs rows :=
      mem_cleanObs.mpr ⟨r1, hr1, rfl, hv1⟩
    exact List.mem_map_of_mem _ this
  have hm2 : (((r2.date.doy : ℚ)), v2) ∈ toPts (cleanObs rows) := by
    have : (⟨r2.date, v2⟩ : Obs) ∈ cleanObs rows :=
      mem_cleanObs.mpr ⟨r2, hr2, rfl, hv2⟩
    exact List.mem_map_of_mem _ this
  have hpred := predict_affine hm1 hm2 hxy hptsLin
  have ho : o.temp = a + b * (o.date.doy : ℚ) :=
    hptsLin ((o.date.doy : ℚ), o.temp)
      (List.mem_map_of_mem _ (mem_of_getLast?_eq hlast))
  have hl := Except.ok.inj ((forecastPipeline_eq hrows hlast).symm.trans hok)
  rw [← hl]
  interval_cases k <;> simp [hpred, ho] <;> ring

theorem c3_witness :
    (outH.map Prod.snd).get? 0 = some ((14 : ℚ) + 2 * ((1 : ℕ) : ℚ)) := by
  refine @c3_affine_in_day_exact rowsH outH ⟨⟨2023, 3⟩, 14⟩ 1 8 2
    (by decide) (by decide) pipeH ?_ ?_ (by decide) (by decide)
  · intro r hr
    fin_cases hr <;> norm_num [rowsH]
  · refine ⟨⟨⟨2023, 1⟩, some 10⟩, by decide, ⟨⟨2023, 2⟩, some 12⟩, by decide,
      by decide, by decide, by norm_num⟩

theorem fitSlope_two (x1 v1 x2 v2 : ℚ) (hx : x1 ≠ x2) :
    fitSlope [(x1, v1), (x2, v2)] = (v2 - v1) / (x2 - x1) := by
  have hd : x2 - x1 ≠ 0 := sub_ne_zero.mpr (Ne.symm hx)
  unfold fitSlope mean
  simp only [List.map_cons, List.map_nil, List.sum_cons, List.sum_nil,
    List.length_cons, List.length_nil]
  push_cast
  split_ifs with h0
  · exfalso
    have h1 : (x2 - x1) * (x2 - x1) = 0 := by linear_combination 2 * h0
    exact hd (mul_self_eq_zero.mp h1)
  · rw [div_eq_div_iff h0 hd]
    ring

/-- C4 counterexample: the projection always has 7 entries; for the spec's
requested horizon of 3 its length would have to be 3, which fails. -/
theorem c4_counterexample :
    (forecastPipeline rowsD).toOption.map List.length = some 7 ∧
    (7 : ℕ) ≠ 3 := by
  refine ⟨by rw [pipeD]; rfl, by decide⟩

/-- C4 amended: the horizon is baked in as 7: every successful projection
has exactly 7 entries, paired with the 7 consecutive calendar dates
following the last observed date (equivalently, future steps 1, ..., 7 in
ascending order with no gaps or duplicates). -/
theorem c4_seven_consecutive_dates {rows : List CleanRow}
    {l : List (Date × ℚ)} {o : Obs}
    (hrows : rows ≠ []) (hlast : (cleanObs rows).getLast? = some o)
    (hok : forecastPipeline rows = Except.ok l) :
    l.length = 7 ∧
    l.map Prod.fst = [o.date.addDays 1, o.date.addDays 2, o.date.addDays 3,
      o.date.addDays 4, o.date.addDays 5, o.date.addDays 6,
      o.date.addDays 7] := by
  have hl := Except.ok.inj ((forecastPipeline_eq hrows hlast).symm.trans hok)
  rw [← hl]
  refine ⟨?_, ?_⟩ <;> simp

theorem c4_witness :
    outD.length = 7 ∧
    outD.map Prod.fst = [Date.addDays ⟨2023, 11⟩ 1, Date.addDays ⟨2023, 11⟩ 2,
      Date.addDays ⟨2023, 11⟩ 3, Date.addDays ⟨2023, 11⟩ 4,
      Date.addDays ⟨2023, 11⟩ 5, Date.addDays ⟨2023, 11⟩ 6,
      Date.addDays ⟨2023, 11⟩ 7] :=
  @c4_seven_consecutive_dates rowsD outD ⟨⟨2023, 11⟩, 2⟩
    (by decide) (by decide) pipeD

/-- C5 counterexample: a series with a single observation does not fail:
the empty-dataframe guard passes, sklearn fits the constant model, and the
code returns seven predictions equal to the single value, instead of the
claimed InsufficientDataError. -/
theorem c5_counterexample :
    forecastPipeline rowsE = Except.ok outE ∧
    (∀ e : Err, forecastPipeline rowsE ≠ Except.error e) := by
  refine ⟨pipeE, ?_⟩
  intro e h
  rw [pipeE] at h
  cases h

/-- C5 amended: only a dataframe that is empty after date cleaning fails
with the empty-data error; a single-observation series already succeeds,
all seven predictions equal to its value; and a two-observation series
succeeds with fitted slope equal to the value difference divided by the
day-of-year difference, not the raw value difference. -/
theorem c5_boundary_behaviour :
    forecastPipeline ([] : List CleanRow) = Except.error Err.emptyData ∧
    (∀ (d : Date) (v : ℚ) (l : List (Date × ℚ)),
      forecastPipeline [⟨d, some v⟩] = Except.ok l →
      l.map Prod.snd = [v, v, v, v, v, v, v]) ∧
    (∀ x1 v1 x2 v2 : ℚ, x1 ≠ x2 →
      fitSlope [(x1, v1), (x2, v2)] = (v2 - v1) / (x2 - x1)) := by
  refine ⟨rfl, ?_, fun x1 v1 x2 v2 hx => fitSlope_two x1 v1 x2 v2 hx⟩
  intro d v l hok
  have hlast : (cleanObs [(⟨d, some v⟩ : CleanRow)]).getLast? = some ⟨d, v⟩ := rfl
  have hl := Except.ok.inj
    ((forecastPipeline_eq (by simp) hlast).symm.trans hok)
  rw [← hl]
  have hpts : toPts (cleanObs [(⟨d, some v⟩ : CleanRow)]) =
      [((d.doy : ℚ), v)] := rfl
  simp only [hpts, List.map_cons, List.map_nil]
  norm_num [predict, fitSlope, fitIntercept, mean]

theorem c5_witness :
    forecastPipeline ([] : List CleanRow) = Except.error Err.emptyData ∧
    outE.map Prod.snd = [5, 5, 5, 5, 5, 5, 5] ∧
    fitSlope [((10 : ℚ), 1), (11, 2)] = (2 - 1) / (11 - 10) :=
  ⟨c5_boundary_behaviour.1,
   c5_boundary_behaviour.2.1 ⟨2023, 5⟩ 5 outE pipeE,
   c5_boundary_behaviour.2.2 10 1 11 2 (by norm_num)⟩

/-- C6 counterexample: on the spec's scenario-4 series the operation simply
succeeds with seven predictions: no requested horizon exists and nothing is
ever rejected as an invalid horizon. -/
theorem c6_counterexample :
    forecastPipeline rowsF = Except.ok outF ∧ outF.length = 7 :=
  ⟨pipeF, rfl⟩

/-- C6 amended: the operation consumes no horizon at all, so no horizon
validation exists: its only failures are the empty-dataframe guard and the
fit on zero samples, and every success carries exactly the 7 hard-coded
future steps. -/
theorem c6_no_horizon_validation (rows : List CleanRow) :
    (rows = [] → forecastPipeline rows = Except.error Err.emptyData) ∧
    (rows ≠ [] → dropnaTemp rows = [] →
      forecastPipeline rows = Except.error Err.noSamples) ∧
    (∀ l, forecastPipeline rows = Except.ok l → l.length = 7) := by
  refine ⟨?_, ?_, ?_⟩
  · rintro rfl; rfl
  · intro hne hdrop
    unfold forecastPipeline
    rw [if_neg (by simpa using hne), cleanObs_nil_iff.mpr hdrop]
    rfl
  · intro l hok
    by_cases hrows : rows = []
    · subst hrows
      rw [show forecastPipeline [] = Except.error Err.emptyData from rfl] at hok
      cases hok
    · cases hlast : (cleanObs rows).getLast? with
      | none =>
        unfold forecastPipeline at hok
        rw [if_neg (by simpa using hrows), hlast] at hok
        cases hok
      | some o =>
        have hl := Except.ok.inj
          ((forecastPipeline_eq hrows hlast).symm.trans hok)
        rw [← hl]
        rfl

theorem c6_witness :
    forecastPipeline ([] : List CleanRow) = Except.error Err.emptyData ∧
    forecastPipeline rowsK = Except.error Err.noSamples ∧
    outF.length = 7 :=
  ⟨(c6_no_horizon_validation []).1 rfl,
   (c6_no_horizon_validation rowsK).2.1 (by simp [rowsK]) (by decide),
   (c6_no_horizon_validation rowsF).2.2 outF pipeF⟩

/-- C7 counterexample: with the same uploaded series, the prediction tab
renders differently under an HTTP 200 response and a failed fetch: the
cited block performs network I/O whose result affects its output. -/
theorem c7_counterexample :
    tab3Display rowsG ⟨200, [(⟨2023, 22⟩, 9)]⟩ ≠
    tab3Display rowsG ⟨404, [(⟨2023, 22⟩, 9)]⟩ := by
  have h := @forecastPipeline_eq rowsG ⟨⟨2023, 21⟩, 3⟩ (by decide) (by decide)
  unfold tab3Display
  rw [h]
  simp [fetch_forecast]

/-- C7 amended: the numeric projection itself is a pure deterministic
function of the cleaned series: the projection component of the rendered
tab equals `forecastPipeline rows` whatever the HTTP response, and hence is
identical across renders with different responses; only the live part of
the display depends on the fetch. -/
theorem c7_projection_independent_of_fetch (rows : List CleanRow)
    (resp1 resp2 : HttpResponse (List (Date × ℚ))) :
    Except.map Prod.fst (tab3Display rows resp1) = forecastPipeline rows ∧
    Except.map Prod.fst (tab3Display rows resp1) =
      Except.map Prod.fst (tab3Display rows resp2) := by
  have key : ∀ resp : HttpResponse (List (Date × ℚ)),
      Except.map Prod.fst (tab3Display rows resp) = forecastPipeline rows := by
    intro resp
    unfold tab3Display
    cases forecastPipeline rows <;> simp [Except.map]
  exact ⟨key resp1, (key resp1).trans (key resp2).symm⟩

end App
